import Mathlib

/-!
Verification development for `teaching-prom/app/server.py`, a small FastAPI
demo that fabricates synthetic Prometheus telemetry: a request-duration
histogram fed by a request loop, a rhythmic counter fed by a seasonal loop,
and job-status gauges pushed to a push gateway by job loops.

The shallow embedding below translates the pieces of the source that the
claims are about: the histogram sink semantics (per-bucket raw counts and
cumulative serialization, as in `prometheus_client.Histogram`), the pure
sinusoid `generate_sin_wave`, the seasonal counter loop, one iteration of
the request loop `simulate_requests`, one iteration of the job-status loop
`simulate_process_state_change` (registry construction, gauge sets, pushes),
and the loop's control flow in the presence of push-gateway transport
errors. Durations and timestamps are modelled as rationals where the claims
only need ordered-field facts, and as reals where `math.sin` is involved.
-/

set_option autoImplicit false

namespace TeachingProm

/-! ### Histogram sink

`REQUEST_DURATION_HISTOGRAM` is declared with buckets `[0.1, 0.2, 0.5, 1, 2, 5]`
and labels `{method, path, status}`. `prometheus_client.Histogram.observe`
walks the upper bounds in order (the library appends `+Inf` as a final bound)
and increments the raw count of the first bucket whose bound is at least the
observed value; serialization renders cumulative (prefix-sum) counts.
-/

/-- Finite bucket upper bounds of `REQUEST_DURATION_HISTOGRAM`:
`buckets = [0.1, 0.2, 0.5, 1, 2, 5]` from the source (the collaborator adds a
final `+Inf` bound, here index 6). -/
def upperBounds : List ℚ := [1/10, 2/10, 5/10, 1, 2, 5]

/-- Index of the first bucket whose upper bound is at least `v`; falling off
the end of the finite bounds lands in the `+Inf` bucket (index = length of the
bound list). Mirrors the `for bound: if amount <= bound: break` walk in the
collaborator's `observe`. -/
def bucketIndex : List ℚ → ℚ → ℕ
  | [], _ => 0
  | b :: rest, v => if v ≤ b then 0 else bucketIndex rest v + 1

/-- Raw (non-cumulative) per-bucket counts of one labelled child of the
histogram, indexed by bucket index (0..6, index 6 being `+Inf`). -/
def HistChild : Type := ℕ → ℕ

/-- Observing `v` increments the raw count of exactly the bucket `v` falls
into, as the collaborator's `observe` does. -/
def observeChild (c : HistChild) (v : ℚ) : HistChild :=
  fun j => if j = bucketIndex upperBounds v then c j + 1 else c j

/-- Serialized cumulative count of bucket `i`: the prefix sum of raw counts
up to and including bucket `i`, as rendered by `generate_latest`. -/
def cumulative (c : HistChild) (i : ℕ) : ℕ :=
  ∑ j in Finset.range (i + 1), c j

/-- Label tuple of `REQUEST_DURATION_HISTOGRAM`: `{method, path, status}`. -/
structure HistLabels where
  method : String
  path : String
  status : ℕ
deriving DecidableEq

/-- Whole-histogram state: one child per label tuple (children are created
lazily; an untouched tuple reads as the zero child in any reachable state). -/
def Hist : Type := HistLabels → HistChild

/-- Observe `v` under label tuple `L`: update only that tuple's child. -/
def observe (h : Hist) (L : HistLabels) (v : ℚ) : Hist :=
  fun L2 => if L2 = L then observeChild (h L2) v else h L2

/-! Helper lemmas about cumulative counts after one observation. -/

theorem sum_ite_bump (c : HistChild) (k n : ℕ) :
    (∑ j in Finset.range n, (if j = k then c j + 1 else c j)) =
      (∑ j in Finset.range n, c j) + (if k < n then 1 else 0) := by
  induction n with
  | zero => simp
  | succ m ih =>
    rw [Finset.sum_range_succ, Finset.sum_range_succ, ih]
    by_cases hk : m = k
    · subst hk
      simp [Nat.lt_irrefl, Nat.lt_succ_self]
      omega
    · have : k < m + 1 ↔ k < m := by omega
      simp [hk, this]
      omega

theorem cumulative_observeChild (c : HistChild) (v : ℚ) (i : ℕ) :
    cumulative (observeChild c v) i =
      cumulative c i + (if bucketIndex upperBounds v ≤ i then 1 else 0) := by
  have h := sum_ite_bump c (bucketIndex upperBounds v) (i + 1)
  have hlt : bucketIndex upperBounds v < i + 1 ↔ bucketIndex upperBounds v ≤ i := by
    omega
  simpa [cumulative, observeChild, hlt] using h

/-! ### Request loop

`simulate_requests` each iteration samples a Gaussian `duration`, samples a
`status`, observes `duration` under labels
`{method="POST", path="/magical/method", status=status}`, logs, and then
sleeps for that same `duration`. The sampled values are inputs of the
embedded iteration; the loop applies no transformation to them.
-/

/-- The fixed label values the request loop uses, at a given sampled status. -/
def requestLabels (status : ℕ) : HistLabels :=
  { method := "POST", path := "/magical/method", status := status }

/-- Result of one request-loop iteration: the updated histogram and the
duration handed to `asyncio.sleep` before the next iteration. -/
structure ReqIterResult where
  hist : Hist
  sleepFor : ℚ

/-- One iteration of `simulate_requests`, given the sampled duration and
status: observe the duration under the loop's labels, then sleep for exactly
that duration. -/
def simulate_requests_iter (h : Hist) (duration : ℚ) (status : ℕ) : ReqIterResult :=
  { hist := observe h (requestLabels status) duration
    sleepFor := duration }

/-! ### Waveform generator

`generate_sin_wave` is the pure sinusoid of the source:
`amplitude * math.sin(2 * math.pi * frequency * time_value + phase_shift) + vertical_shift`.
It is embedded over the reals, `math.sin` as `Real.sin` and `math.pi` as
`Real.pi`.
-/

/-- Sinusoidal value at `time_value`, translated operator-for-operator from
the body of `generate_sin_wave` in the source. The Python signature defaults
`amplitude` and `frequency` to `1.0` and `phase_shift` and `vertical_shift`
to `0.0`; callers below pass those defaults explicitly. -/
noncomputable def generate_sin_wave (time_value : ℝ) (amplitude : ℝ)
    (frequency : ℝ) (phase_shift : ℝ) (vertical_shift : ℝ) : ℝ :=
  amplitude * Real.sin (2 * Real.pi * frequency * time_value + phase_shift)
    + vertical_shift

/-- Formula stated by the spec for the waveform generator:
`amplitude * sin(2*pi*frequency*timeValue + phaseShift) + verticalShift`.
Written from the spec's words, to be compared with `generate_sin_wave`. -/
noncomputable def waveform_spec (timeValue amplitude frequency phaseShift
    verticalShift : ℝ) : ℝ :=
  amplitude * Real.sin (2 * Real.pi * frequency * timeValue + phaseShift)
    + verticalShift

/-! ### Seasonal loop and rhythmic counter

`simulate_seasonal_counts` each tick reads the clock, draws
`amp_noise = random.randrange(1, 10)`, computes
`v = generate_sin_wave(current_time, amplitude=amp_noise, frequency=1/600)`,
forms `pod_v = max(v, 0) * 100`, and increments
`RHYTHEMIC_REQUEST_COUNTER.labels(component="front_page", action="view")` by
`pod_v`. The clock value and the drawn amplitude are inputs of the embedded
tick.
-/

/-- State of `RHYTHEMIC_REQUEST_COUNTER`: accumulated value per
`(component, action)` label tuple. -/
def CounterState : Type := String × String → ℝ

/-- `Counter.labels(...).inc(amount)`: add `amount` to the addressed tuple's
accumulated value. -/
noncomputable def counter_inc (c : CounterState) (L : String × String)
    (amount : ℝ) : CounterState :=
  fun L2 => if L2 = L then c L2 + amount else c L2

/-- The label tuple the seasonal loop increments. -/
def seasonalLabels : String × String := ("front_page", "view")

/-- Per-tick increment of the seasonal loop: `pod_v = max(v, 0) * 100` where
`v = generate_sin_wave(current_time, amplitude=amp_noise, frequency=1/600)`. -/
noncomputable def seasonal_tick_increment (current_time : ℝ) (amp_noise : ℕ) : ℝ :=
  max (generate_sin_wave current_time (amp_noise : ℝ) (1/600) 0 0) 0 * 100

/-- One tick of `simulate_seasonal_counts`, given the clock reading and the
drawn amplitude noise. -/
noncomputable def seasonal_step (c : CounterState) (tick : ℝ × ℕ) : CounterState :=
  counter_inc c seasonalLabels (seasonal_tick_increment tick.1 tick.2)

/-- The seasonal loop run over a finite sequence of ticks (each tick a pair
of clock reading and drawn amplitude noise). -/
noncomputable def seasonal_run (c : CounterState) (ticks : List (ℝ × ℕ)) :
    CounterState :=
  ticks.foldl seasonal_step c

/-! ### Job-status loop and push-gateway cycle

`simulate_process_state_change` loops forever. Each iteration it builds one
fresh `CollectorRegistry`, registers one `sim_job_status` gauge (labels
`{status}`) into it, draws a fresh `exec_id`, sets the gauge's `start` series
to the current time and pushes the registry, sleeps the sampled run time,
draws an outcome from `{"failure", "success"}`, sets the gauge's outcome
series to the current time, and pushes the same registry again. The unused
helper `push_job_status` instead builds a registry per call. Registries are
given a numeric identity `regId` (fresh per construction) so that sharing
and distinctness of registry objects between the two pushes is expressible.
-/

/-- The two possible outcomes of `random.choices(["failure", "success"], ...)`
in the job-status loop. -/
inductive Outcome where
  | failure : Outcome
  | success : Outcome
deriving DecidableEq

/-- Status label string recorded for an outcome. -/
def outcome_status : Outcome → String
  | Outcome.failure => "failure"
  | Outcome.success => "success"

/-- State of one `sim_job_status` gauge: its `{status}`-labelled series, each
holding the timestamp most recently written by `set_to_current_time()`. -/
abbrev GaugeState : Type := List (String × ℚ)

/-- `gauge.labels(status=s).set_to_current_time()` at clock reading `t`:
overwrite the series for `s`, creating it on first use. -/
def gauge_set : GaugeState → String → ℚ → GaugeState
  | [], s, t => [(s, t)]
  | (s0, t0) :: rest, s, t =>
    if s0 = s then (s0, t) :: rest else (s0, t0) :: gauge_set rest s t

/-- Current value of the series for status `s`, `none` when that series was
never written. -/
def gauge_lookup : GaugeState → String → Option ℚ
  | [], _ => none
  | (s0, t0) :: rest, s => if s0 = s then some t0 else gauge_lookup rest s

/-- One `CollectorRegistry` holding one `sim_job_status` gauge. `regId` is
the registry object's identity, fresh at each `CollectorRegistry()`
construction. -/
structure JobRegistry where
  regId : ℕ
  gauge : GaugeState
deriving DecidableEq

/-- One `push_to_gateway` call: the job name, the `exec_id` grouping key, and
the snapshot of the registry handed over. -/
structure PushRecord where
  job : String
  grouping_exec_id : String
  snapshot : JobRegistry
deriving DecidableEq

/-- One iteration of the `while True:` body of `simulate_process_state_change`:
build a fresh registry with one gauge, set the `start` series at clock `t_start`
and push, later set the sampled outcome's series at clock `t_outcome` and push
the same registry again. Returns the two pushes in order. The fresh registry
identity, the `exec_id`, the clock readings and the sampled outcome are
inputs of the embedded iteration. -/
def job_iteration (job_name : String) (reg_id : ℕ) (exec_id : String)
    (t_start t_outcome : ℚ) (outcome : Outcome) : PushRecord × PushRecord :=
  let reg0 : JobRegistry := { regId := reg_id, gauge := [] }
  let reg1 : JobRegistry := { reg0 with gauge := gauge_set reg0.gauge "start" t_start }
  let push1 : PushRecord := { job := job_name, grouping_exec_id := exec_id, snapshot := reg1 }
  let reg2 : JobRegistry :=
    { reg1 with gauge := gauge_set reg1.gauge (outcome_status outcome) t_outcome }
  let push2 : PushRecord := { job := job_name, grouping_exec_id := exec_id, snapshot := reg2 }
  (push1, push2)

/-- The unused helper `push_job_status` of the source: each call constructs
its own fresh registry, registers a gauge with labels `{job, status}`, sets
one series and pushes. Modelled for comparison; `simulate_process_state_change`
never calls it. -/
def push_job_status (job : String) (status : String) (reg_id : ℕ) (t : ℚ) :
    PushRecord :=
  { job := job
    grouping_exec_id := ""
    snapshot := { regId := reg_id, gauge := gauge_set [] status t } }

/-- Freshness property asserted by the spec for the two pushes of one
job-loop iteration, written from the spec's words for comparison with
`job_iteration`: the registry handed to the gateway at the outcome transition
is a different registry object from the one pushed at the start transition,
and shares no state with it (in particular it holds no `start` series). -/
def fresh_registry_per_push (p : PushRecord × PushRecord) : Prop :=
  p.2.snapshot.regId ≠ p.1.snapshot.regId ∧
    gauge_lookup p.2.snapshot.gauge "start" = none

/-! ### Job-loop control flow under transport errors

In the source, both `push_to_gateway` calls of
`simulate_process_state_change` sit directly in the `while True:` body with
no surrounding `try`/`except`; a transport error raised by either call
propagates out of the loop and ends the task. The loop is embedded over a
finite schedule of iterations, each iteration carrying the outcome of its
two push attempts; a raised error is an `Except.error` that no handler
catches, and the result counts the iterations completed. -/

/-- Outcome of one `push_to_gateway` attempt, decided by the environment. -/
inductive PushAttempt where
  | ok : PushAttempt
  | transportError : PushAttempt
deriving DecidableEq

/-- The `while True:` body of `simulate_process_state_change`, run over a
finite schedule: the n-th pair gives the environment's outcome for the n-th
iteration's start push and outcome push. A transport error at either push is
uncaught and aborts the whole loop; otherwise the iteration completes and
the loop proceeds to the next scheduled iteration. Returns the number of
completed iterations. -/
def simulate_process_state_change_run :
    List (PushAttempt × PushAttempt) → Except String ℕ
  | [] => Except.ok 0
  | (p1, p2) :: rest =>
    match p1 with
    | PushAttempt.transportError => Except.error "transport error at start push"
    | PushAttempt.ok =>
      match p2 with
      | PushAttempt.transportError => Except.error "transport error at outcome push"
      | PushAttempt.ok =>
        match simulate_process_state_change_run rest with
        | Except.ok n => Except.ok (n + 1)
        | Except.error e => Except.error e

/-! ### HTTP surface

The scrape registry `metric_registry` holds the request histogram and the
rhythmic counter. `GET /` returns a fixed welcome JSON message; FastAPI's
default response status is 200. `GET /service/metrics` returns
`Response(generate_latest(metric_registry), media_type=CONTENT_TYPE_LATEST)`:
a read-only snapshot of the registry, serialized by the collaborator.
-/

/-- Contents of the shared scrape registry `metric_registry`. -/
structure ScrapeRegistry where
  requestHist : Hist
  rhythmCounter : CounterState

/-- Serialized snapshot rendered by the collaborator's `generate_latest`:
cumulative bucket counts of every histogram child and the accumulated
counter values. -/
structure MetricsSnapshot where
  histCumulative : HistLabels → ℕ → ℕ
  counterValues : CounterState

/-- The collaborator's `generate_latest(registry)`: render the current state
of every sink in the registry, without modifying any of them. -/
noncomputable def generate_latest (r : ScrapeRegistry) : MetricsSnapshot :=
  { histCumulative := fun L i => cumulative (r.requestHist L) i
    counterValues := r.rhythmCounter }

/-- Exposition media type constant of the collaborator
(`prometheus_client.CONTENT_TYPE_LATEST`). -/
def CONTENT_TYPE_LATEST : String := "text/plain; version=0.0.4; charset=utf-8"

/-- Response of the `GET /` route: a JSON object with one `message` field. -/
structure JsonMessageResponse where
  status : ℕ
  message : String
deriving DecidableEq

/-- The `root` route handler: fixed welcome payload, status 200. -/
def root : JsonMessageResponse :=
  { status := 200, message := "Welcome to FastAPI DEMO with Prometheus metrics!" }

/-- Response of the `GET /service/metrics` route. -/
structure MetricsResponse where
  status : ℕ
  body : MetricsSnapshot
  media_type : String

/-- The `metrics` route handler: reads the shared scrape registry and returns
the serialized snapshot with the collaborator's media type; the registry is
returned unchanged (the handler mutates no sink). -/
noncomputable def metrics (r : ScrapeRegistry) : ScrapeRegistry × MetricsResponse :=
  (r, { status := 200, body := generate_latest r, media_type := CONTENT_TYPE_LATEST })

/-! ## Theorems -/

/-- C4: for all real inputs `timeValue, amplitude, frequency, phaseShift,
verticalShift`, the waveform generator returns exactly
`amplitude * sin(2*pi*frequency*timeValue + phaseShift) + verticalShift`;
as a Lean function over the reals it is pure, total and deterministic, and
the definition has no error path. -/
theorem C4_generate_sin_wave_matches_spec (t a f p v : ℝ) :
    generate_sin_wave t a f p v = waveform_spec t a f p v :=
  rfl

/-- C7 as frozen is false for a negative amplitude: with `A = -1` (defaults
elsewhere) at `t = 1/4`, the waveform value is `-1`, which does not lie in
the interval `[-A, A] = [1, -1]`. -/
theorem C7_counterexample :
    ¬ (-(-1 : ℝ) ≤ generate_sin_wave (1/4) (-1) 1 0 0 ∧
        generate_sin_wave (1/4) (-1) 1 0 0 ≤ -1) := by
  have harg : 2 * Real.pi * 1 * (1/4 : ℝ) + 0 = Real.pi / 2 := by ring
  have hval : generate_sin_wave (1/4) (-1) 1 0 0 = -1 := by
    unfold generate_sin_wave
    rw [harg, Real.sin_pi_div_two]
    ring
  rw [hval]
  norm_num

/-- C7 (amended): for every real `t` and every non-negative amplitude `A`
(with default frequency, phase and vertical shifts),
`waveform(t, amplitude=A)` lies in `[-A, A]`, and `waveform(t, amplitude=0)`
equals the vertical shift. -/
theorem C7_waveform_range (t A v : ℝ) (hA : 0 ≤ A) :
    (-A ≤ generate_sin_wave t A 1 0 0 ∧ generate_sin_wave t A 1 0 0 ≤ A) ∧
      generate_sin_wave t 0 1 0 v = v := by
  have hs1 : Real.sin (2 * Real.pi * 1 * t + 0) ≤ 1 := Real.sin_le_one _
  have hs2 : -1 ≤ Real.sin (2 * Real.pi * 1 * t + 0) := Real.neg_one_le_sin _
  refine ⟨⟨?_, ?_⟩, ?_⟩
  · unfold generate_sin_wave
    nlinarith
  · unfold generate_sin_wave
    nlinarith
  · unfold generate_sin_wave
    ring

/-- Witness for C7: at `t = 0`, `A = 1`, `v = 5` the hypothesis `0 ≤ A`
holds and the bounds evaluate. -/
theorem C7_waveform_range_witness :
    (0 : ℝ) ≤ 1 ∧
      ((-(1 : ℝ) ≤ generate_sin_wave 0 1 1 0 0 ∧
          generate_sin_wave 0 1 1 0 0 ≤ 1) ∧
        generate_sin_wave 0 0 1 0 5 = 5) :=
  ⟨by norm_num, C7_waveform_range 0 1 5 (by norm_num)⟩

/-- C3: observing `0.15` under any label tuple `L` of any histogram state
and then serializing leaves the cumulative count of the `0.1` bucket
(index 0) under `L` unchanged and increases the cumulative count of the
`0.2` bucket and of every larger bucket (indices 1..6, the last being
`+Inf`) under `L` by exactly 1. -/
theorem C3_observe_015_bumps_02_and_larger (h : Hist) (L : HistLabels) :
    cumulative (observe h L (3/20) L) 0 = cumulative (h L) 0 ∧
    cumulative (observe h L (3/20) L) 1 = cumulative (h L) 1 + 1 ∧
    cumulative (observe h L (3/20) L) 2 = cumulative (h L) 2 + 1 ∧
    cumulative (observe h L (3/20) L) 3 = cumulative (h L) 3 + 1 ∧
    cumulative (observe h L (3/20) L) 4 = cumulative (h L) 4 + 1 ∧
    cumulative (observe h L (3/20) L) 5 = cumulative (h L) 5 + 1 ∧
    cumulative (observe h L (3/20) L) 6 = cumulative (h L) 6 + 1 := by
  have hobs : observe h L (3/20) L = observeChild (h L) (3/20) := by
    simp [observe]
  have hidx : bucketIndex upperBounds (3/20) = 1 := by
    norm_num [bucketIndex, upperBounds]
  refine ⟨?_, ?_, ?_, ?_, ?_, ?_, ?_⟩ <;>
    rw [hobs, cumulative_observeChild, hidx] <;> norm_num

/-- C6: one iteration of the request loop observes the sampled duration into
the histogram under labels
`{method="POST", path="/magical/method", status=sampledStatus}` and then
sleeps for exactly that same sampled duration. -/
theorem C6_sleep_equals_observed_duration (h : Hist) (d : ℚ) (status : ℕ) :
    (simulate_requests_iter h d status).hist = observe h (requestLabels status) d ∧
      (simulate_requests_iter h d status).sleepFor = d :=
  ⟨rfl, rfl⟩

/-- All-zero histogram state, used to instantiate witnesses. -/
def zeroHist : Hist := fun _ _ => 0

/-- C10: the request loop applies no guard to the sampled duration: a
negative sample `d` falls into the first bucket
(`bucketIndex = 0`), so after serialization every cumulative bucket count
under the loop's labels, including the lowest `0.1` bucket, increases by 1,
and the same negative `d` is passed unchanged as the iteration's sleep
duration. -/
theorem C10_negative_sample_unguarded (h : Hist) (status : ℕ) (d : ℚ)
    (hd : d < 0) :
    (simulate_requests_iter h d status).sleepFor = d ∧
    bucketIndex upperBounds d = 0 ∧
    cumulative ((simulate_requests_iter h d status).hist (requestLabels status)) 0
        = cumulative (h (requestLabels status)) 0 + 1 ∧
    cumulative ((simulate_requests_iter h d status).hist (requestLabels status)) 1
        = cumulative (h (requestLabels status)) 1 + 1 ∧
    cumulative ((simulate_requests_iter h d status).hist (requestLabels status)) 2
        = cumulative (h (requestLabels status)) 2 + 1 ∧
    cumulative ((simulate_requests_iter h d status).hist (requestLabels status)) 3
        = cumulative (h (requestLabels status)) 3 + 1 ∧
    cumulative ((simulate_requests_iter h d status).hist (requestLabels status)) 4
        = cumulative (h (requestLabels status)) 4 + 1 ∧
    cumulative ((simulate_requests_iter h d status).hist (requestLabels status)) 5
        = cumulative (h (requestLabels status)) 5 + 1 ∧
    cumulative ((simulate_requests_iter h d status).hist (requestLabels status)) 6
        = cumulative (h (requestLabels status)) 6 + 1 := by
  have hidx : bucketIndex upperBounds d = 0 := by
    unfold upperBounds bucketIndex
    rw [if_pos (by linarith)]
  have hobs : (simulate_requests_iter h d status).hist (requestLabels status)
      = observeChild (h (requestLabels status)) d := by
    simp [simulate_requests_iter, observe]
  refine ⟨rfl, hidx, ?_, ?_, ?_, ?_, ?_, ?_, ?_⟩ <;>
    rw [hobs, cumulative_observeChild, hidx] <;> norm_num

/-- Witness for C10: at the all-zero histogram, status 200 and sampled
duration `-1`, the hypothesis `-1 < 0` holds and all conclusions evaluate. -/
theorem C10_negative_sample_unguarded_witness :
    (-1 : ℚ) < 0 ∧
    ((simulate_requests_iter zeroHist (-1) 200).sleepFor = -1 ∧
    bucketIndex upperBounds (-1) = 0 ∧
    cumulative ((simulate_requests_iter zeroHist (-1) 200).hist (requestLabels 200)) 0
        = cumulative (zeroHist (requestLabels 200)) 0 + 1 ∧
    cumulative ((simulate_requests_iter zeroHist (-1) 200).hist (requestLabels 200)) 1
        = cumulative (zeroHist (requestLabels 200)) 1 + 1 ∧
    cumulative ((simulate_requests_iter zeroHist (-1) 200).hist (requestLabels 200)) 2
        = cumulative (zeroHist (requestLabels 200)) 2 + 1 ∧
    cumulative ((simulate_requests_iter zeroHist (-1) 200).hist (requestLabels 200)) 3
        = cumulative (zeroHist (requestLabels 200)) 3 + 1 ∧
    cumulative ((simulate_requests_iter zeroHist (-1) 200).hist (requestLabels 200)) 4
        = cumulative (zeroHist (requestLabels 200)) 4 + 1 ∧
    cumulative ((simulate_requests_iter zeroHist (-1) 200).hist (requestLabels 200)) 5
        = cumulative (zeroHist (requestLabels 200)) 5 + 1 ∧
    cumulative ((simulate_requests_iter zeroHist (-1) 200).hist (requestLabels 200)) 6
        = cumulative (zeroHist (requestLabels 200)) 6 + 1) :=
  ⟨by norm_num, C10_negative_sample_unguarded zeroHist 200 (-1) (by norm_num)⟩

/-- Per-tick seasonal increments are non-negative: `max(v, 0) * 100 ≥ 0`. -/
theorem seasonal_tick_increment_nonneg (t : ℝ) (amp : ℕ) :
    0 ≤ seasonal_tick_increment t amp :=
  mul_nonneg (le_max_right _ _) (by norm_num)

/-- Running the seasonal loop never lowers the counter value under its
labels, starting from any counter state. -/
theorem counter_le_seasonal_run (more : List (ℝ × ℕ)) (c : CounterState) :
    c seasonalLabels ≤ seasonal_run c more seasonalLabels := by
  induction more generalizing c with
  | nil => exact le_refl _
  | cons tick rest ih =>
    refine le_trans ?_ (ih (seasonal_step c tick))
    have hinc := seasonal_tick_increment_nonneg tick.1 tick.2
    have hstep : seasonal_step c tick seasonalLabels
        = c seasonalLabels + seasonal_tick_increment tick.1 tick.2 := by
      simp [seasonal_step, counter_inc]
    rw [hstep]
    linarith

/-- C5: every per-tick increment applied by the seasonal loop equals
`max(waveform(now, amplitude=ampNoise, frequency=1/600), 0) * 100` and is
non-negative, so along any sequence of seasonal-loop ticks the counter value
under labels `{component="front_page", action="view"}` never decreases. -/
theorem C5_seasonal_counter_monotone (t : ℝ) (amp : ℕ) (c : CounterState)
    (ticks more : List (ℝ × ℕ)) :
    (seasonal_tick_increment t amp =
        max (generate_sin_wave t (amp : ℝ) (1/600) 0 0) 0 * 100 ∧
      0 ≤ seasonal_tick_increment t amp) ∧
    seasonal_run c ticks seasonalLabels ≤
      seasonal_run c (ticks ++ more) seasonalLabels := by
  refine ⟨⟨rfl, seasonal_tick_increment_nonneg t amp⟩, ?_⟩
  have happ : seasonal_run c (ticks ++ more) =
      seasonal_run (seasonal_run c ticks) more := by
    simp [seasonal_run, List.foldl_append]
  rw [happ]
  exact counter_le_seasonal_run more (seasonal_run c ticks)

/-- C9: within one iteration of the job-status loop, the registry pushed at
the outcome transition is the same registry object as the one pushed at the
start transition, and its snapshot still holds the earlier `start` series
alongside the outcome series. -/
theorem C9_second_push_contains_start_series (job_name : String) (reg_id : ℕ)
    (exec_id : String) (t1 t2 : ℚ) (oc : Outcome) :
    (job_iteration job_name reg_id exec_id t1 t2 oc).2.snapshot.regId =
        (job_iteration job_name reg_id exec_id t1 t2 oc).1.snapshot.regId ∧
      gauge_lookup (job_iteration job_name reg_id exec_id t1 t2 oc).2.snapshot.gauge
          "start" = some t1 ∧
      gauge_lookup (job_iteration job_name reg_id exec_id t1 t2 oc).2.snapshot.gauge
          (outcome_status oc) = some t2 := by
  cases oc <;>
    simp [job_iteration, gauge_set, gauge_lookup, outcome_status]

/-- C2 as frozen is false: in a concrete job-loop iteration the registry
pushed at the outcome transition has the same identity as the one pushed at
the start transition and still holds the start series, so no brand-new empty
registry is constructed before the second push. -/
theorem C2_counterexample :
    ¬ fresh_registry_per_push
        (job_iteration "long_running_job" 0 "exec-1" 1 2 Outcome.success) := by
  intro hfresh
  exact hfresh.1 rfl

/-- C2 (amended): a brand-new empty registry with a single freshly
registered gauge is constructed once per job-loop iteration, immediately
before the start push (its gauge state is the empty state with only the
start series set), and the outcome push of the same iteration reuses that
same registry, adding the outcome series on top of the start series, rather
than constructing a second registry for the second transition. (The unused
helper `push_job_status` would construct one registry per push.) -/
theorem C2_one_registry_per_iteration (job_name : String) (reg_id : ℕ)
    (exec_id : String) (t1 t2 : ℚ) (oc : Outcome) :
    ((job_iteration job_name reg_id exec_id t1 t2 oc).1.snapshot.regId = reg_id ∧
      (job_iteration job_name reg_id exec_id t1 t2 oc).1.snapshot.gauge =
        gauge_set [] "start" t1) ∧
    ((job_iteration job_name reg_id exec_id t1 t2 oc).2.snapshot.regId =
        (job_iteration job_name reg_id exec_id t1 t2 oc).1.snapshot.regId ∧
      (job_iteration job_name reg_id exec_id t1 t2 oc).2.snapshot.gauge =
        gauge_set
          ((job_iteration job_name reg_id exec_id t1 t2 oc).1.snapshot.gauge)
          (outcome_status oc) t2) ∧
    push_job_status job_name "start" reg_id t1 =
      { job := job_name, grouping_exec_id := ""
        snapshot := { regId := reg_id, gauge := gauge_set [] "start" t1 } } :=
  ⟨⟨rfl, rfl⟩, ⟨rfl, rfl⟩, rfl⟩

/-- C1 is the spec's stated policy, but the code violates it: with the
environment raising a transport error at the first iteration's start push
and behaving normally at a second scheduled iteration, the loop result is
the propagated error — the loop never reaches its next scheduled iteration —
whereas the same two-iteration schedule without errors completes both
iterations. There is no `try`/`except` around either `push_to_gateway` call
in `simulate_process_state_change`. -/
theorem C1_transport_error_terminates_loop :
    simulate_process_state_change_run
        [(PushAttempt.transportError, PushAttempt.ok),
          (PushAttempt.ok, PushAttempt.ok)] =
      Except.error "transport error at start push" ∧
    simulate_process_state_change_run
        [(PushAttempt.ok, PushAttempt.ok), (PushAttempt.ok, PushAttempt.ok)] =
      Except.ok 2 :=
  ⟨rfl, rfl⟩

/-- C8: `GET /` always returns status 200 with the fixed welcome message,
and `GET /service/metrics` always returns status 200 with body the
serialized snapshot of the shared scrape registry and the collaborator's
exposition media type, leaving the registry (and so every sink) unchanged. -/
theorem C8_http_surface (r : ScrapeRegistry) :
    (root.status = 200 ∧
      root.message = "Welcome to FastAPI DEMO with Prometheus metrics!") ∧
    ((metrics r).1 = r ∧
      (metrics r).2.status = 200 ∧
      (metrics r).2.body = generate_latest r ∧
      (metrics r).2.media_type = CONTENT_TYPE_LATEST) :=
  ⟨⟨rfl, rfl⟩, rfl, rfl, rfl, rfl⟩

end TeachingProm
